import Mathlib

/-!
Shallow embedding of the complaint-tracking backend (src/index.js).

The service keeps Mongoose `Complaint` documents in MongoDB and exposes
four Express routes: POST /api/complaints (create), GET /api/complaints
(list), PATCH /api/complaints/:id/status (update status / append comment)
and POST /api/admin/login.  The store is modelled as a `List Complaint`
kept in insertion order (MongoDB natural order for this workload);
timestamps (`Date.now`) are modelled as `Nat` parameters supplied to each
handler; Mongoose document validation, which runs at `save()`, is the
`validateComplaint` check below; the unique index on `trackId` is the
duplicate scan in `createComplaint`.
-/

namespace ComplaintBackend

/-- One `statusHistory` subdocument of `StatusHistorySchema`:
a status string plus a time stamp. -/
structure StatusEntry where
  status : String
  time : Nat
deriving DecidableEq, Repr

/-- A Mongoose `Complaint` document (schema at src/index.js lines 32-82).
`id` is the string form of the Mongo `_id`; `evidence` defaults to null
(`none`); `comments` and `statusHistory` default to `[]`. -/
structure Complaint where
  id : String
  trackId : String
  description : String
  category : String
  status : String
  createdAt : Nat
  evidence : Option String
  comments : List String
  statusHistory : List StatusEntry
deriving DecidableEq, Repr

/-- The `enum` list of the schema's `status` path (line 45). -/
def validStatuses : List String :=
  ["Pending", "In Review", "Resolved", "Escalated", "Unnecessary"]

/-- Whether a string passes the schema's `status` enum validator. -/
def validStatus (s : String) : Bool :=
  validStatuses.contains s

/-- Mongoose document validation executed by `save()`:
`trackId`, `description` and `category` are `required` strings (for the
String type, `required` rejects the empty string), `status` must pass the
enum validator, and every `statusHistory` entry has a `required` status
string.  `createdAt`, `evidence` and `comments` carry no validators. -/
def validateComplaint (c : Complaint) : Bool :=
  (c.trackId != "") && (c.description != "") && (c.category != "")
    && validStatus c.status
    && c.statusHistory.all (fun e => e.status != "")

/-- The JSON body of `POST /api/complaints`.  The route passes `req.body`
straight to `new Complaint(req.body)`, so every schema path may be
supplied; `none` means the field is absent and the schema default
applies. -/
structure CreateBody where
  trackId : String
  description : String
  category : String
  evidence : Option String
  status : Option String
  createdAt : Option Nat
  comments : Option (List String)
  statusHistory : Option (List StatusEntry)
deriving Repr

/-- Failure modes of the create route's `save()`: a Mongoose validation
error, or the MongoDB duplicate-key error from the unique `trackId`
index.  The route maps both to HTTP 400. -/
inductive CreateError where
  | validation
  | duplicateKey
deriving DecidableEq, Repr

/-- `POST /api/complaints` (lines 89-104): builds the document with
schema defaults, pushes the first `statusHistory` entry
`(status, createdAt)` before saving, then `save()` validates the document
and the unique index rejects a duplicate `trackId`. -/
def createComplaint (store : List Complaint) (body : CreateBody)
    (newId : String) (now : Nat) :
    Except CreateError (List Complaint × Complaint) :=
  let base : Complaint :=
    { id := newId
      trackId := body.trackId
      description := body.description
      category := body.category
      status := body.status.getD "Pending"
      createdAt := body.createdAt.getD now
      evidence := body.evidence
      comments := body.comments.getD []
      statusHistory := body.statusHistory.getD [] }
  let doc : Complaint :=
    { base with
      statusHistory :=
        base.statusHistory ++ [{ status := base.status, time := base.createdAt }] }
  if validateComplaint doc then
    if store.any (fun d => d.trackId == doc.trackId) then
      .error .duplicateKey
    else
      .ok (store ++ [doc], doc)
  else
    .error .validation

/-- The create route's observable effect: HTTP status (201 or 400) and
the resulting persisted store (unchanged when `save()` fails). -/
def createRoute (store : List Complaint) (body : CreateBody)
    (newId : String) (now : Nat) : Nat × List Complaint :=
  match createComplaint store body newId now with
  | .ok (s, _) => (201, s)
  | .error _ => (400, store)

/-- Whether consecutive complaints are ordered by `createdAt` descending
(most recent first). -/
def sortedByCreatedAtDesc : List Complaint → Bool
  | [] => true
  | [_] => true
  | a :: b :: rest => (b.createdAt ≤ a.createdAt) && sortedByCreatedAtDesc (b :: rest)

/-- `GET /api/complaints` (lines 107-114) runs
`Complaint.find().sort(createdAt: -1)`.  MongoDB returns some permutation
of the stored documents that is ordered by the single sort key
`createdAt` descending; for documents with equal `createdAt` it
guarantees no particular relative order (its sort is not stable), so the
route's behaviour is the relation below: `out` is a possible response for
the given store. -/
def listSpec (store out : List Complaint) : Prop :=
  store.Perm out ∧ sortedByCreatedAtDesc out = true

/-- Failure modes of the update route: the `CastError` thrown by
`findById` on a malformed id (caught by the route's `catch`, HTTP 400),
the explicit not-found check (HTTP 404), and a `save()` validation
failure (HTTP 400). -/
inductive UpdateError where
  | castError
  | notFound
  | validation
deriving DecidableEq, Repr

/-- Hexadecimal digit test used by the ObjectId cast. -/
def isHexDigit (c : Char) : Bool :=
  c.isDigit || (('a' ≤ c) && (c ≤ 'f')) || (('A' ≤ c) && (c ≤ 'F'))

/-- Whether `findById` can cast the `:id` route parameter to an ObjectId:
a 24-character hexadecimal string, or any 12-character string (taken as
12 raw bytes).  Anything else makes `findById` throw a `CastError`. -/
def isValidObjectId (s : String) : Bool :=
  (s.length == 24 && s.toList.all isHexDigit) || s.length == 12

/-- `if (comment) complaint.comments.push(comment)` (lines 126-128):
a JavaScript truthiness check, so an absent or empty-string comment is
skipped. -/
def pushComment (c : Complaint) (comment : Option String) : Complaint :=
  match comment with
  | some cm => if cm != "" then { c with comments := c.comments ++ [cm] } else c
  | none => c

/-- `if (status && complaint.status !== status)` (lines 131-134): when a
truthy status differing from the current one is supplied, set it and push
a history entry stamped `new Date()`; otherwise leave the document
alone.  An absent or empty-string status is falsy and skipped. -/
def applyStatus (c : Complaint) (status : Option String) (now : Nat) : Complaint :=
  match status with
  | some st =>
      if st != "" && c.status != st then
        { c with
          status := st
          statusHistory := c.statusHistory ++ [{ status := st, time := now }] }
      else c
  | none => c

/-- The in-memory document mutation of the update route: comment push
first (lines 126-128), then the status branch (lines 131-134). -/
def applyUpdateDoc (c : Complaint) (status comment : Option String) (now : Nat) :
    Complaint :=
  applyStatus (pushComment c comment) status now

/-- The document produced by the status branch of the update route:
status replaced and a history entry appended. -/
def setStatusDoc (c : Complaint) (s : String) (now : Nat) : Complaint :=
  { c with
    status := s
    statusHistory := c.statusHistory ++ [{ status := s, time := now }] }

/-- `PATCH /api/complaints/:id/status` (lines 116-142): cast the id
(`CastError` lands in the catch block), `findById`, 404 when absent,
mutate the in-memory document, then `save()` — which persists the whole
mutation atomically or, on validation failure, persists nothing. -/
def updateStatus (store : List Complaint) (id : String)
    (status comment : Option String) (now : Nat) :
    Except UpdateError (List Complaint × Complaint) :=
  if isValidObjectId id then
    match store.find? (fun c => c.id == id) with
    | none => .error .notFound
    | some c =>
        let c2 := applyUpdateDoc c status comment now
        if validateComplaint c2 then
          .ok (store.map (fun d => if d.id == id then c2 else d), c2)
        else
          .error .validation
  else
    .error .castError

/-- HTTP status code produced by the update route: 200 on success, 404
for the not-found branch, 400 for everything reaching the catch block
(cast error) or the save validation failure. -/
def updateHttpStatus (r : Except UpdateError (List Complaint × Complaint)) : Nat :=
  match r with
  | .ok _ => 200
  | .error .notFound => 404
  | .error _ => 400

/-- The update route's observable effect: HTTP status and resulting
persisted store (unchanged on every failure). -/
def updateRoute (store : List Complaint) (id : String)
    (status comment : Option String) (now : Nat) : Nat × List Complaint :=
  match updateStatus store id status comment now with
  | .ok (s, _) => (200, s)
  | .error .notFound => (404, store)
  | .error _ => (400, store)

/-- Persisted state of one complaint after an update call addressed to
it: the mutated document when `save()` succeeds, the unchanged stored
document when it fails. -/
def updateOutcome (c : Complaint) (status comment : Option String) (now : Nat) :
    Complaint :=
  let c2 := applyUpdateDoc c status comment now
  if validateComplaint c2 then c2 else c

/-- One `PATCH /api/complaints/:id/status` request body aimed at a fixed
complaint, with the wall-clock time of the call. -/
structure UpdateCall where
  status : Option String
  comment : Option String
  now : Nat
deriving Repr

/-- Persisted state of a complaint after a sequence of update calls. -/
def runCalls (c : Complaint) (calls : List UpdateCall) : Complaint :=
  calls.foldl (fun acc call => updateOutcome acc call.status call.comment call.now) c

/-- Number of calls in the sequence that actually changed the persisted
`status` field. -/
def changedCount (c : Complaint) : List UpdateCall → Nat
  | [] => 0
  | call :: rest =>
      let c2 := updateOutcome c call.status call.comment call.now
      (if c2.status != c.status then 1 else 0) + changedCount c2 rest

/-- Successful login response: the fixed message, the payload recorded
inside the signed token (`jwt.sign` is an opaque signing capability, so
the model records the payload it is given), and the `email` field of the
response body. -/
structure LoginOk where
  message : String
  tokenPayloadEmail : String
  tokenPayloadRole : String
  email : String
deriving DecidableEq, Repr

/-- Outcome of `POST /api/admin/login`: 400 for missing fields, 401 for
a credential mismatch, 200 with the token on success. -/
inductive LoginResult where
  | missingFields
  | invalidCredentials
  | success (r : LoginOk)
deriving DecidableEq, Repr

/-- JavaScript falsiness of an optional string field of `req.body`:
absent (`undefined`) and the empty string are falsy. -/
def jsFalsy : Option String → Bool
  | none => true
  | some s => s == ""

/-- The JavaScript `String.prototype.trim()` primitive used by the login
route: strips whitespace characters from both ends of the string. -/
def jsTrim (s : String) : String :=
  ⟨((s.toList.dropWhile Char.isWhitespace).reverse.dropWhile Char.isWhitespace).reverse⟩

/-- `POST /api/admin/login` (lines 145-196): reject when either raw field
is falsy, then trim both, compare against the configured credentials, and
on a match sign a token over the RAW `email` (line 178) while responding
with the trimmed `cleanEmail` (line 187). -/
def login (adminEmail adminPassword : String) (email password : Option String) :
    LoginResult :=
  if jsFalsy email || jsFalsy password then
    .missingFields
  else
    let rawEmail := email.getD ""
    let cleanEmail := jsTrim rawEmail
    let cleanPassword := jsTrim (password.getD "")
    if cleanEmail == adminEmail && cleanPassword == adminPassword then
      .success
        { message := "Login successful"
          tokenPayloadEmail := rawEmail
          tokenPayloadRole := "admin"
          email := cleanEmail }
    else
      .invalidCredentials

/-- HTTP status code of the login route. -/
def loginHttpStatus : LoginResult → Nat
  | .missingFields => 400
  | .invalidCredentials => 401
  | .success _ => 200

/-- Store states reachable through the service's mutating routes,
starting from an empty collection. -/
inductive Reachable : List Complaint → Prop where
  | init : Reachable []
  | doCreate (s : List Complaint) (body : CreateBody) (newId : String) (now : Nat) :
      Reachable s → Reachable (createRoute s body newId now).2
  | doUpdate (s : List Complaint) (id : String) (status comment : Option String)
      (now : Nat) : Reachable s → Reachable (updateRoute s id status comment now).2

/-! ### Concrete fixtures used by witnesses and counterexamples -/

/-- The stored complaint produced by the spec's create scenario
(description "leak", category "water", trackId "T1") at time 1, with a
well-formed 24-hex-character id. -/
def sampleComplaint : Complaint :=
  { id := "650000000000000000000001"
    trackId := "T1"
    description := "leak"
    category := "water"
    status := "Pending"
    createdAt := 1
    evidence := none
    comments := []
    statusHistory := [{ status := "Pending", time := 1 }] }

/-- The request body of that create scenario. -/
def sampleBody : CreateBody :=
  { trackId := "T1"
    description := "leak"
    category := "water"
    evidence := none
    status := none
    createdAt := none
    comments := none
    statusHistory := none }

/-- A create body carrying a status outside the enumerated set. -/
def badStatusBody : CreateBody :=
  { trackId := "T2"
    description := "noise"
    category := "sound"
    evidence := none
    status := some "Bogus"
    createdAt := none
    comments := none
    statusHistory := none }

/-- A create body with an empty description. -/
def emptyDescBody : CreateBody :=
  { trackId := "T9"
    description := ""
    category := "water"
    evidence := none
    status := none
    createdAt := none
    comments := none
    statusHistory := none }

/-- Two valid stored complaints sharing the same `createdAt`. -/
def complaintA : Complaint :=
  { sampleComplaint with id := "650000000000000000000001", trackId := "A" }

/-- See `complaintA`: same `createdAt`, different id and trackId. -/
def complaintB : Complaint :=
  { sampleComplaint with id := "650000000000000000000002", trackId := "B" }

/-! ### Helper lemmas -/

lemma validStatus_nonempty {s : String} (h : validStatus s = true) : s ≠ "" := by
  intro hs
  subst hs
  exact absurd h (by decide)

lemma validateComplaint_status {c : Complaint} (h : validateComplaint c = true) :
    validStatus c.status = true := by
  simp only [validateComplaint, Bool.and_eq_true] at h
  exact h.1.2

lemma pushComment_status (c : Complaint) (cm : Option String) :
    (pushComment c cm).status = c.status := by
  cases cm with
  | none => rfl
  | some s =>
      by_cases h : (s != "") = true
      · simp [pushComment, h]
      · simp [pushComment, h]

lemma pushComment_statusHistory (c : Complaint) (cm : Option String) :
    (pushComment c cm).statusHistory = c.statusHistory := by
  cases cm with
  | none => rfl
  | some s =>
      by_cases h : (s != "") = true
      · simp [pushComment, h]
      · simp [pushComment, h]

lemma validateComplaint_pushComment (c : Complaint) (cm : Option String) :
    validateComplaint (pushComment c cm) = validateComplaint c := by
  cases cm with
  | none => rfl
  | some s =>
      by_cases h : (s != "") = true
      · simp [pushComment, h, validateComplaint]
      · simp [pushComment, h]

lemma validateComplaint_setStatusDoc (c : Complaint) (s : String) (now : Nat)
    (hc : validateComplaint c = true) :
    validateComplaint (setStatusDoc c s now) = validStatus s := by
  simp only [validateComplaint, Bool.and_eq_true] at hc
  obtain ⟨⟨⟨⟨h1, h2⟩, h3⟩, _⟩, h5⟩ := hc
  cases hvs : validStatus s with
  | true =>
      have hne : s ≠ "" := validStatus_nonempty hvs
      simp [setStatusDoc, validateComplaint, h1, h2, h3, h5, hvs, hne]
  | false => simp [setStatusDoc, validateComplaint, hvs]

lemma applyStatus_same (c : Complaint) (s : String) (now : Nat) (h : c.status = s) :
    applyStatus c (some s) now = c := by
  simp [applyStatus, h]

lemma applyStatus_change (c : Complaint) (s : String) (now : Nat)
    (hne : s ≠ "") (h : c.status ≠ s) :
    applyStatus c (some s) now = setStatusDoc c s now := by
  have h1 : (s != "") = true := by simpa [bne_iff_ne] using hne
  have h2 : (c.status != s) = true := by simpa [bne_iff_ne] using h
  simp [applyStatus, setStatusDoc, h1, h2]

lemma updateOutcome_of_valid_change (c : Complaint) (s : String) (cm : Option String)
    (now : Nat) (hc : validateComplaint c = true) (hvs : validStatus s = true)
    (hne : c.status ≠ s) :
    updateOutcome c (some s) cm now = setStatusDoc (pushComment c cm) s now := by
  have hpush : validateComplaint (pushComment c cm) = true := by
    rw [validateComplaint_pushComment]; exact hc
  have hne2 : (pushComment c cm).status ≠ s := by rw [pushComment_status]; exact hne
  have happ : applyUpdateDoc c (some s) cm now = setStatusDoc (pushComment c cm) s now := by
    unfold applyUpdateDoc
    exact applyStatus_change _ _ _ (validStatus_nonempty hvs) hne2
  have hval : validateComplaint (setStatusDoc (pushComment c cm) s now) = true := by
    rw [validateComplaint_setStatusDoc _ _ _ hpush]; exact hvs
  unfold updateOutcome
  rw [happ, if_pos hval]

lemma updateOutcome_of_same (c : Complaint) (s : String) (cm : Option String)
    (now : Nat) (hc : validateComplaint c = true) (hsame : c.status = s) :
    updateOutcome c (some s) cm now = pushComment c cm := by
  have hpush : validateComplaint (pushComment c cm) = true := by
    rw [validateComplaint_pushComment]; exact hc
  have happ : applyUpdateDoc c (some s) cm now = pushComment c cm := by
    unfold applyUpdateDoc
    exact applyStatus_same _ _ _ (by rw [pushComment_status]; exact hsame)
  unfold updateOutcome
  rw [happ, if_pos hpush]

lemma updateOutcome_of_invalid (c : Complaint) (s : String) (cm : Option String)
    (now : Nat) (hc : validateComplaint c = true) (hvs : validStatus s = false)
    (hne0 : s ≠ "") :
    updateOutcome c (some s) cm now = c := by
  have hpush : validateComplaint (pushComment c cm) = true := by
    rw [validateComplaint_pushComment]; exact hc
  have hne : (pushComment c cm).status ≠ s := by
    rw [pushComment_status]
    intro hh
    rw [← hh] at hvs
    rw [validateComplaint_status hc] at hvs
    exact Bool.noConfusion hvs
  have happ : applyUpdateDoc c (some s) cm now = setStatusDoc (pushComment c cm) s now := by
    unfold applyUpdateDoc
    exact applyStatus_change _ _ _ hne0 hne
  have hval : validateComplaint (setStatusDoc (pushComment c cm) s now) = false := by
    rw [validateComplaint_setStatusDoc _ _ _ hpush]; exact hvs
  unfold updateOutcome
  rw [happ, if_neg (by simp [hval])]

lemma updateOutcome_of_falsy (c : Complaint) (st cm : Option String) (now : Nat)
    (hc : validateComplaint c = true) (hf : ∀ s, st = some s → s = "") :
    updateOutcome c st cm now = pushComment c cm := by
  have hpush : validateComplaint (pushComment c cm) = true := by
    rw [validateComplaint_pushComment]; exact hc
  have happ : applyUpdateDoc c st cm now = pushComment c cm := by
    unfold applyUpdateDoc
    cases st with
    | none => rfl
    | some s =>
        have hs := hf s rfl
        subst hs
        simp [applyStatus]
  unfold updateOutcome
  rw [happ, if_pos hpush]

lemma updateOutcome_spec (c : Complaint) (st cm : Option String) (now : Nat)
    (hc : validateComplaint c = true) :
    validateComplaint (updateOutcome c st cm now) = true
    ∧ (updateOutcome c st cm now).statusHistory.length
        = c.statusHistory.length
          + (if (updateOutcome c st cm now).status != c.status then 1 else 0) := by
  have hpush : validateComplaint (pushComment c cm) = true := by
    rw [validateComplaint_pushComment]; exact hc
  cases st with
  | none =>
      rw [updateOutcome_of_falsy c none cm now hc (by intro s h; cases h)]
      simp [hpush, pushComment_status, pushComment_statusHistory]
  | some s =>
      by_cases hs0 : s = ""
      · rw [updateOutcome_of_falsy c (some s) cm now hc (by intro x hx; cases hx; exact hs0)]
        simp [hpush, pushComment_status, pushComment_statusHistory]
      · by_cases hsame : c.status = s
        · rw [updateOutcome_of_same c s cm now hc hsame]
          simp [hpush, pushComment_status, pushComment_statusHistory]
        · cases hvs : validStatus s with
          | true =>
              rw [updateOutcome_of_valid_change c s cm now hc hvs hsame]
              have h1 : (setStatusDoc (pushComment c cm) s now).status = s := rfl
              have h2 : (setStatusDoc (pushComment c cm) s now).statusHistory
                  = c.statusHistory ++ [{ status := s, time := now }] := by
                show (pushComment c cm).statusHistory ++ _ = _
                rw [pushComment_statusHistory]
              constructor
              · rw [validateComplaint_setStatusDoc _ _ _ hpush]; exact hvs
              · rw [h2, h1]
                have hchg : (s != c.status) = true := by
                  simp only [bne_iff_ne, ne_eq]
                  exact fun hh => hsame hh.symm
                simp [hchg]
          | false =>
              rw [updateOutcome_of_invalid c s cm now hc hvs hs0]
              simp [hc]

lemma validate_applyUpdateDoc_invalid (c : Complaint) (s : String) (cm : Option String)
    (now : Nat) (hc : validateComplaint c = true) (hvs : validStatus s = false)
    (hne0 : s ≠ "") :
    validateComplaint (applyUpdateDoc c (some s) cm now) = false := by
  have hpush : validateComplaint (pushComment c cm) = true := by
    rw [validateComplaint_pushComment]; exact hc
  have hne : (pushComment c cm).status ≠ s := by
    rw [pushComment_status]
    intro hh
    rw [← hh] at hvs
    rw [validateComplaint_status hc] at hvs
    exact Bool.noConfusion hvs
  have happ : applyUpdateDoc c (some s) cm now = setStatusDoc (pushComment c cm) s now := by
    unfold applyUpdateDoc
    exact applyStatus_change _ _ _ hne0 hne
  rw [happ, validateComplaint_setStatusDoc _ _ _ hpush]
  exact hvs

lemma updateStatus_invalid_status (store : List Complaint) (id : String) (s : String)
    (cm : Option String) (now : Nat) (c : Complaint)
    (hid : isValidObjectId id = true)
    (hfind : store.find? (fun x => x.id == id) = some c)
    (hc : validateComplaint c = true)
    (hs0 : s ≠ "") (hs : validStatus s = false) :
    updateStatus store id (some s) cm now = .error .validation := by
  unfold updateStatus
  rw [if_pos hid, hfind]
  simp only
  rw [if_neg (by simp [validate_applyUpdateDoc_invalid c s cm now hc hs hs0])]

lemma createComplaint_ok_inv (store : List Complaint) (body : CreateBody)
    (newId : String) (now : Nat) (s' : List Complaint) (doc : Complaint)
    (h : createComplaint store body newId now = .ok (s', doc)) :
    validateComplaint doc = true ∧ s' = store ++ [doc] := by
  simp only [createComplaint] at h
  split at h
  case isTrue hval =>
    split at h
    case isTrue => exact absurd h (by simp)
    case isFalse =>
      simp only [Except.ok.injEq, Prod.mk.injEq] at h
      refine ⟨?_, ?_⟩
      · rw [← h.2]; exact hval
      · rw [← h.1, h.2]
  case isFalse => exact absurd h (by simp)

lemma updateStatus_ok_inv (store : List Complaint) (id : String) (st cm : Option String)
    (now : Nat) (s' : List Complaint) (c2 : Complaint)
    (h : updateStatus store id st cm now = .ok (s', c2)) :
    validateComplaint c2 = true
    ∧ s' = store.map (fun d => if d.id == id then c2 else d) := by
  simp only [updateStatus] at h
  split at h
  case isTrue hid =>
    cases hfind : store.find? (fun c => c.id == id) with
    | none => rw [hfind] at h; exact absurd h (by simp)
    | some c =>
        rw [hfind] at h
        simp only at h
        split at h
        case isTrue hval =>
          simp only [Except.ok.injEq, Prod.mk.injEq] at h
          refine ⟨?_, ?_⟩
          · rw [← h.2]; exact hval
          · rw [← h.1, h.2]
        case isFalse => exact absurd h (by simp)
  case isFalse => exact absurd h (by simp)

lemma updateRoute_preserves (store : List Complaint) (id : String) (st cm : Option String)
    (now : Nat) (hstore : ∀ c ∈ store, validateComplaint c = true) :
    ∀ c ∈ (updateRoute store id st cm now).2, validateComplaint c = true := by
  intro c hc
  unfold updateRoute at hc
  cases h : updateStatus store id st cm now with
  | error e =>
      rw [h] at hc
      cases e <;> exact hstore c hc
  | ok p =>
      rw [h] at hc
      obtain ⟨s', c2⟩ := p
      have hinv := updateStatus_ok_inv store id st cm now s' c2 h
      simp only at hc
      rw [hinv.2, List.mem_map] at hc
      obtain ⟨d, hd, hdc⟩ := hc
      by_cases hdid : (d.id == id) = true
      · rw [if_pos hdid] at hdc
        rw [← hdc]
        exact hinv.1
      · rw [if_neg hdid] at hdc
        rw [← hdc]
        exact hstore d hd

lemma reachable_valid {s : List Complaint} (h : Reachable s) :
    ∀ c ∈ s, validateComplaint c = true := by
  induction h with
  | init => intro c hc; cases hc
  | doCreate s body newId now _ ih =>
      intro c hc
      unfold createRoute at hc
      cases hcr : createComplaint s body newId now with
      | error e => rw [hcr] at hc; exact ih c hc
      | ok p =>
          rw [hcr] at hc
          obtain ⟨s', doc⟩ := p
          have hinv := createComplaint_ok_inv s body newId now s' doc hcr
          simp only at hc
          rw [hinv.2] at hc
          rcases List.mem_append.mp hc with h1 | h2
          · exact ih c h1
          · rw [List.mem_singleton] at h2
            rw [h2]
            exact hinv.1
  | doUpdate s id st cm now _ ih =>
      exact updateRoute_preserves s id st cm now ih

lemma createComplaint_missing_field (store : List Complaint) (body : CreateBody)
    (newId : String) (now : Nat)
    (hbad : body.description = "" ∨ body.category = "" ∨ body.trackId = "") :
    createComplaint store body newId now = .error .validation := by
  simp only [createComplaint]
  split
  case isTrue hval =>
    exfalso
    rcases hbad with h | h | h <;> simp [validateComplaint, h] at hval
  case isFalse => rfl

lemma createComplaint_invalid_status (store : List Complaint) (body : CreateBody)
    (newId : String) (now : Nat) (s : String)
    (hbody : body.status = some s) (hs : validStatus s = false) :
    createComplaint store body newId now = .error .validation := by
  simp only [createComplaint]
  split
  case isTrue hval =>
    exfalso
    simp [validateComplaint, hbody, hs] at hval
  case isFalse => rfl

lemma createComplaint_duplicate (store : List Complaint) (body : CreateBody)
    (newId : String) (now : Nat)
    (hdup : ∃ x ∈ store, x.trackId = body.trackId) :
    createComplaint store body newId now = .error .validation
    ∨ createComplaint store body newId now = .error .duplicateKey := by
  simp only [createComplaint]
  split
  case isTrue hval =>
    right
    have hany : store.any (fun d => d.trackId == body.trackId) = true := by
      rw [List.any_eq_true]
      obtain ⟨x, hx, hxe⟩ := hdup
      exact ⟨x, hx, by simp [hxe]⟩
    rw [if_pos hany]
  case isFalse => left; rfl

lemma createRoute_error (store : List Complaint) (body : CreateBody)
    (newId : String) (now : Nat) (e : CreateError)
    (h : createComplaint store body newId now = .error e) :
    createRoute store body newId now = (400, store) := by
  unfold createRoute
  rw [h]

lemma login_success (ae ap e p : String) (he : e ≠ "") (hp : p ≠ "")
    (hte : jsTrim e = ae) (htp : jsTrim p = ap) :
    login ae ap (some e) (some p)
      = .success { message := "Login successful", tokenPayloadEmail := e,
                   tokenPayloadRole := "admin", email := jsTrim e } := by
  have h1 : jsFalsy (some e) = false := by simp [jsFalsy, he]
  have h2 : jsFalsy (some p) = false := by simp [jsFalsy, hp]
  simp [login, h1, h2, hte, htp]

lemma sortedByCreatedAtDesc_chain' :
    ∀ l : List Complaint, sortedByCreatedAtDesc l = true →
      l.Chain' (fun a b => b.createdAt ≤ a.createdAt)
  | [], _ => List.chain'_nil
  | [_], _ => List.chain'_singleton _
  | a :: b :: rest, h => by
      simp only [sortedByCreatedAtDesc, Bool.and_eq_true, decide_eq_true_eq] at h
      rw [List.chain'_cons]
      exact ⟨h.1, sortedByCreatedAtDesc_chain' (b :: rest) h.2⟩

lemma runCalls_spec (calls : List UpdateCall) :
    ∀ c : Complaint, validateComplaint c = true →
      validateComplaint (runCalls c calls) = true
      ∧ (runCalls c calls).statusHistory.length
          = c.statusHistory.length + changedCount c calls := by
  induction calls with
  | nil => intro c hc; exact ⟨hc, by simp [runCalls, changedCount]⟩
  | cons call rest ih =>
      intro c hc
      have hstep := updateOutcome_spec c call.status call.comment call.now hc
      have hrest := ih (updateOutcome c call.status call.comment call.now) hstep.1
      have hrun : runCalls c (call :: rest)
          = runCalls (updateOutcome c call.status call.comment call.now) rest := rfl
      have hcnt : changedCount c (call :: rest)
          = (if (updateOutcome c call.status call.comment call.now).status != c.status
              then 1 else 0)
            + changedCount (updateOutcome c call.status call.comment call.now) rest := rfl
      refine ⟨hrun ▸ hrest.1, ?_⟩
      rw [hrun, hrest.2, hstep.2, hcnt]
      omega

/-! ### Claim theorems -/

/-- C1: For every complaint and every sequence of UpdateStatus calls on
it, a statusHistory entry is appended by a call exactly when it supplies
a status value (one of the enumerated statuses) different from the
complaint's current status — resubmitting the current status appends
nothing — and over any call sequence `statusHistory.length` equals 1 plus
the number of calls that actually changed the status. -/
theorem statusHistory_appends_iff_status_changes
    (c : Complaint) (hc : validateComplaint c = true)
    (h1 : c.statusHistory.length = 1) (calls : List UpdateCall) :
    (runCalls c calls).statusHistory.length = 1 + changedCount c calls
    ∧ ∀ (s : String) (cm : Option String) (now : Nat), validStatus s = true →
        ((updateOutcome c (some s) cm now).statusHistory.length
            = c.statusHistory.length + 1 ↔ s ≠ c.status) := by
  constructor
  · have h := (runCalls_spec calls c hc).2
    rw [h, h1]
  · intro s cm now hvs
    by_cases hsame : c.status = s
    · rw [updateOutcome_of_same c s cm now hc hsame, pushComment_statusHistory]
      constructor
      · intro hlen; exact absurd hlen (by omega)
      · intro hne; exact absurd hsame (fun hh => hne hh.symm)
    · rw [updateOutcome_of_valid_change c s cm now hc hvs hsame]
      have h2 : (setStatusDoc (pushComment c cm) s now).statusHistory
          = c.statusHistory ++ [{ status := s, time := now }] := by
        show (pushComment c cm).statusHistory ++ _ = _
        rw [pushComment_statusHistory]
      rw [h2]
      simp only [List.length_append, List.length_singleton, true_iff]
      exact fun hh => hsame hh.symm

/-- Witness for C1 at the spec's scenario: two consecutive
`status = Resolved` updates on a freshly created complaint log exactly
one history entry. -/
theorem statusHistory_appends_iff_status_changes_witness :
    (runCalls sampleComplaint
        [{ status := some "Resolved", comment := none, now := 2 },
         { status := some "Resolved", comment := none, now := 3 }]).statusHistory.length
      = 1 + changedCount sampleComplaint
          [{ status := some "Resolved", comment := none, now := 2 },
           { status := some "Resolved", comment := none, now := 3 }]
    ∧ ((updateOutcome sampleComplaint (some "Resolved") none 2).statusHistory.length
        = sampleComplaint.statusHistory.length + 1 ↔ "Resolved" ≠ sampleComplaint.status) := by
  have h := statusHistory_appends_iff_status_changes sampleComplaint (by decide) (by decide)
    [{ status := some "Resolved", comment := none, now := 2 },
     { status := some "Resolved", comment := none, now := 3 }]
  exact ⟨h.1, h.2 "Resolved" none 2 (by decide)⟩

/-- C2: A successful create call with non-empty description, category
and fresh trackId (and optional evidence) persists, atomically with the
complaint itself, a record with status Pending, createdAt = now, empty
comments, and statusHistory equal to exactly the one entry
(Pending, createdAt). -/
theorem create_success_shape
    (store : List Complaint) (d cat tid : String) (ev : Option String)
    (newId : String) (now : Nat)
    (hd : d ≠ "") (hcat : cat ≠ "") (htid : tid ≠ "")
    (hdup : ∀ x ∈ store, x.trackId ≠ tid) :
    createComplaint store
        { trackId := tid, description := d, category := cat, evidence := ev,
          status := none, createdAt := none, comments := none, statusHistory := none }
        newId now
      = .ok (store ++
            [{ id := newId, trackId := tid, description := d, category := cat,
               status := "Pending", createdAt := now, evidence := ev, comments := [],
               statusHistory := [{ status := "Pending", time := now }] }],
          { id := newId, trackId := tid, description := d, category := cat,
            status := "Pending", createdAt := now, evidence := ev, comments := [],
            statusHistory := [{ status := "Pending", time := now }] }) := by
  have hval : validateComplaint
      { id := newId, trackId := tid, description := d, category := cat,
        status := "Pending", createdAt := now, evidence := ev, comments := [],
        statusHistory := [{ status := "Pending", time := now }] } = true := by
    simp [validateComplaint, validStatus, validStatuses, hd, hcat, htid]
  have hany : store.any (fun x => x.trackId == tid) = false := by
    rw [List.any_eq_false]
    intro x hx
    simp [hdup x hx]
  simp only [createComplaint, Option.getD_none, List.nil_append]
  rw [if_pos hval, if_neg (by simp [hany])]

/-- Witness for C2: the spec's create scenario on the empty store. -/
theorem create_success_shape_witness :
    createComplaint [] sampleBody "650000000000000000000001" 1
      = .ok ([sampleComplaint], sampleComplaint) :=
  create_success_shape [] "leak" "water" "T1" none "650000000000000000000001" 1
    (by decide) (by decide) (by decide) (by intro x hx; cases hx)

/-- C3: Create responds 400 and persists nothing whenever description,
category or trackId is missing/empty, and likewise when a complaint with
the supplied trackId already exists — in the duplicate case the store
still holds exactly its previous contents, so the first complaint is
retained and the second is not persisted. -/
theorem create_rejects_missing_and_duplicate
    (store : List Complaint) (body : CreateBody) (newId : String) (now : Nat) :
    ((body.description = "" ∨ body.category = "" ∨ body.trackId = "") →
        createRoute store body newId now = (400, store))
    ∧ ((∃ x ∈ store, x.trackId = body.trackId) →
        createRoute store body newId now = (400, store)) := by
  constructor
  · intro hbad
    exact createRoute_error store body newId now _
      (createComplaint_missing_field store body newId now hbad)
  · intro hdup
    rcases createComplaint_duplicate store body newId now hdup with h | h
    · exact createRoute_error store body newId now _ h
    · exact createRoute_error store body newId now _ h

/-- Witness for C3: an empty description is rejected, and re-creating
trackId "T1" against a store already holding it leaves the store with
exactly the first complaint. -/
theorem create_rejects_missing_and_duplicate_witness :
    createRoute [] emptyDescBody "650000000000000000000009" 9 = (400, [])
    ∧ createRoute [sampleComplaint] sampleBody "650000000000000000000002" 2
        = (400, [sampleComplaint]) := by
  constructor
  · exact (create_rejects_missing_and_duplicate [] emptyDescBody _ _).1 (Or.inl rfl)
  · exact (create_rejects_missing_and_duplicate [sampleComplaint] sampleBody _ _).2
      ⟨sampleComplaint, by simp, rfl⟩

/-- C4 counterexample: the route delegates ordering to a single-key
MongoDB sort, which guarantees nothing about documents sharing the same
`createdAt`; for two stored complaints with equal `createdAt`, the
reversed response is an admissible List output, yet it does not retain
store-internal insertion order — refuting the claimed stable tie-break. -/
theorem list_tie_order_counterexample :
    listSpec [complaintA, complaintB] [complaintB, complaintA]
    ∧ complaintA.createdAt = complaintB.createdAt
    ∧ [complaintB, complaintA] ≠ [complaintA, complaintB] := by
  refine ⟨⟨by decide, by decide⟩, rfl, by decide⟩

/-- C4 amended: List returns all complaints (a permutation of the
store), pairwise sorted by `createdAt` descending, and the empty
sequence for an empty store; complaints sharing an identical `createdAt`
may appear in any relative order, since the underlying single-key sort
is not stable. -/
theorem list_sorted_desc (store out : List Complaint) (h : listSpec store out) :
    out.Perm store
    ∧ out.Pairwise (fun a b => b.createdAt ≤ a.createdAt)
    ∧ (store = [] → out = []) := by
  obtain ⟨hperm, hsort⟩ := h
  refine ⟨hperm.symm, ?_, ?_⟩
  · haveI : IsTrans Complaint (fun a b => b.createdAt ≤ a.createdAt) :=
      ⟨fun _ _ _ hab hbc => le_trans hbc hab⟩
    exact List.chain'_iff_pairwise.mp (sortedByCreatedAtDesc_chain' out hsort)
  · intro h0
    rw [h0] at hperm
    exact (List.Perm.nil_eq hperm).symm

/-- Witness for C4 amended, at a concrete admissible List response. -/
theorem list_sorted_desc_witness :
    ([complaintB, complaintA]).Perm [complaintA, complaintB]
    ∧ ([complaintB, complaintA]).Pairwise (fun a b => b.createdAt ≤ a.createdAt)
    ∧ ([complaintA, complaintB] = [] → [complaintB, complaintA] = []) :=
  list_sorted_desc [complaintA, complaintB] [complaintB, complaintA] ⟨by decide, by decide⟩

/-- C5: Login rejects with HTTP 400 when either submitted field is
empty/missing; with both fields non-empty it trims them, returns the
signed token and the normalized (trimmed) email exactly when both
trimmed values match the configured credentials, and fails with the one
HTTP 401 AuthenticationError for every other non-empty combination,
whichever field differs. -/
theorem login_validates_and_authenticates (ae ap : String) :
    (∀ email password : Option String,
        jsFalsy email = true ∨ jsFalsy password = true →
        login ae ap email password = .missingFields)
    ∧ (∀ e p : String, e ≠ "" → p ≠ "" → jsTrim e = ae → jsTrim p = ap →
        login ae ap (some e) (some p)
          = .success { message := "Login successful", tokenPayloadEmail := e,
                       tokenPayloadRole := "admin", email := jsTrim e })
    ∧ (∀ e p : String, e ≠ "" → p ≠ "" → ¬(jsTrim e = ae ∧ jsTrim p = ap) →
        login ae ap (some e) (some p) = .invalidCredentials) := by
  refine ⟨?_, ?_, ?_⟩
  · intro email password h
    cases h with
    | inl h => simp [login, h]
    | inr h => simp [login, h]
  · intro e p he hp hte htp
    exact login_success ae ap e p he hp hte htp
  · intro e p he hp hmis
    have h1 : jsFalsy (some e) = false := by simp [jsFalsy, he]
    have h2 : jsFalsy (some p) = false := by simp [jsFalsy, hp]
    have h3 : (jsTrim e == ae && jsTrim p == ap) = false := by
      by_cases hea : jsTrim e = ae
      · by_cases hpa : jsTrim p = ap
        · exact absurd ⟨hea, hpa⟩ hmis
        · simp [hpa]
      · simp [hea]
    simp [login, h1, h2, h3]

/-- Witness for C5: the three login branches at concrete inputs —
missing password, correct credentials carrying whitespace, and a
wrong-password attempt. -/
theorem login_validates_and_authenticates_witness :
    login "prasad@gmail.com" "prasad123" (some "prasad@gmail.com") (some "")
        = .missingFields
    ∧ login "prasad@gmail.com" "prasad123" (some " prasad@gmail.com ") (some "prasad123")
        = .success { message := "Login successful",
                     tokenPayloadEmail := " prasad@gmail.com ",
                     tokenPayloadRole := "admin",
                     email := jsTrim " prasad@gmail.com " }
    ∧ login "prasad@gmail.com" "prasad123" (some " admin@x.com ") (some " wrong ")
        = .invalidCredentials := by
  have h := login_validates_and_authenticates "prasad@gmail.com" "prasad123"
  refine ⟨?_, ?_, ?_⟩
  · exact h.1 (some "prasad@gmail.com") (some "") (Or.inr (by decide))
  · exact h.2.1 " prasad@gmail.com " "prasad123" (by decide) (by decide) (by decide) (by decide)
  · exact h.2.2 " admin@x.com " " wrong " (by decide) (by decide) (by decide)

/-- C6 counterexample: two failures of the claim as stated.  First, the
route guards the status branch with JavaScript truthiness, so a supplied
empty-string status — which is not one of the five enumerated values —
is silently ignored and the call succeeds instead of failing with
ValidationError.  Second, for a malformed id no complaint with that id
exists, yet the route answers 400 (the CastError lands in the catch
block), not the claimed 404. -/
theorem update_errors_counterexample :
    (validStatus "" = false
      ∧ updateStatus [sampleComplaint] "650000000000000000000001" (some "") none 5
          = .ok ([sampleComplaint], sampleComplaint))
    ∧ (isValidObjectId "missing" = false
      ∧ sampleComplaint.id ≠ "missing"
      ∧ updateHttpStatus (updateStatus [sampleComplaint] "missing" (some "Bogus") none 5)
          = 400) := by
  refine ⟨⟨by decide, rfl⟩, by decide, by decide, rfl⟩

/-- C6 amended: over a store of valid documents and a well-formed id,
UpdateStatus fails 404 when no complaint with the id exists; when the
complaint exists and newStatus is supplied as a NON-EMPTY string outside
the five enumerated values it fails with ValidationError (400); and when
the supplied status is empty (treated as absent) or one of the
enumerated values, the call succeeds and returns the updated
complaint.  (Malformed ids are the subject of C9.) -/
theorem update_errors_amended (store : List Complaint) (id : String)
    (st cm : Option String) (now : Nat)
    (hstore : ∀ c ∈ store, validateComplaint c = true)
    (hid : isValidObjectId id = true) :
    (store.find? (fun x => x.id == id) = none →
        updateStatus store id st cm now = .error .notFound
        ∧ updateHttpStatus (updateStatus store id st cm now) = 404)
    ∧ (∀ c, store.find? (fun x => x.id == id) = some c →
        ∀ s, st = some s → s ≠ "" → validStatus s = false →
          updateStatus store id st cm now = .error .validation
          ∧ updateHttpStatus (updateStatus store id st cm now) = 400)
    ∧ (∀ c, store.find? (fun x => x.id == id) = some c →
        (∀ s, st = some s → s = "" ∨ validStatus s = true) →
          updateStatus store id st cm now
            = .ok (store.map (fun d => if d.id == id then applyUpdateDoc c st cm now else d),
                   applyUpdateDoc c st cm now)) := by
  refine ⟨?_, ?_, ?_⟩
  · intro hfind
    have h : updateStatus store id st cm now = .error .notFound := by
      unfold updateStatus
      rw [if_pos hid, hfind]
    exact ⟨h, by rw [h]; rfl⟩
  · intro c hfind s hst hs0 hs
    have hc : validateComplaint c = true :=
      hstore c (List.mem_of_find?_eq_some hfind)
    subst hst
    have h := updateStatus_invalid_status store id s cm now c hid hfind hc hs0 hs
    exact ⟨h, by rw [h]; rfl⟩
  · intro c hfind hok
    have hc : validateComplaint c = true :=
      hstore c (List.mem_of_find?_eq_some hfind)
    have hval : validateComplaint (applyUpdateDoc c st cm now) = true := by
      have hpush : validateComplaint (pushComment c cm) = true := by
        rw [validateComplaint_pushComment]; exact hc
      cases st with
      | none => exact hpush
      | some s =>
          rcases hok s rfl with h0 | hvs
          · unfold applyUpdateDoc
            rw [h0]
            simpa [applyStatus] using hpush
          · by_cases hsame : (pushComment c cm).status = s
            · unfold applyUpdateDoc
              rw [applyStatus_same _ _ _ hsame]
              exact hpush
            · unfold applyUpdateDoc
              rw [applyStatus_change _ _ _ (validStatus_nonempty hvs) hsame]
              rw [validateComplaint_setStatusDoc _ _ _ hpush]
              exact hvs
    unfold updateStatus
    rw [if_pos hid, hfind]
    simp only
    rw [if_pos hval]

/-- Witness for C6 amended: a well-formed absent id answers 404; a
supplied non-empty invalid status on an existing complaint answers
ValidationError/400. -/
theorem update_errors_amended_witness :
    (updateStatus [sampleComplaint] "650000000000000000000002" (some "Bogus") none 5
        = .error .notFound
      ∧ updateHttpStatus
          (updateStatus [sampleComplaint] "650000000000000000000002" (some "Bogus") none 5)
          = 404)
    ∧ (updateStatus [sampleComplaint] "650000000000000000000001" (some "Bogus") none 5
        = .error .validation
      ∧ updateHttpStatus
          (updateStatus [sampleComplaint] "650000000000000000000001" (some "Bogus") none 5)
          = 400) := by
  constructor
  · exact (update_errors_amended [sampleComplaint] "650000000000000000000002"
      (some "Bogus") none 5 (by decide) (by decide)).1 rfl
  · exact (update_errors_amended [sampleComplaint] "650000000000000000000001"
      (some "Bogus") none 5 (by decide) (by decide)).2.1 sampleComplaint rfl
      "Bogus" rfl (by decide) (by decide)

/-- C7: A failing UpdateStatus call persists none of its mutations: with
a valid non-empty comment supplied together with a non-empty invalid
status, `save()` fails validation, the call reports ValidationError and
the route leaves the store — in particular the stored complaint's
comments — exactly as before. -/
theorem update_failure_is_atomic (store : List Complaint) (id : String)
    (s cmt : String) (now : Nat) (c : Complaint)
    (hid : isValidObjectId id = true)
    (hfind : store.find? (fun x => x.id == id) = some c)
    (hc : validateComplaint c = true)
    (_hcmt : cmt ≠ "") (hs0 : s ≠ "") (hs : validStatus s = false) :
    updateStatus store id (some s) (some cmt) now = .error .validation
    ∧ updateRoute store id (some s) (some cmt) now = (400, store) := by
  have h := updateStatus_invalid_status store id s (some cmt) now c hid hfind hc hs0 hs
  refine ⟨h, ?_⟩
  unfold updateRoute
  rw [h]

/-- Witness for C7: comment "checked" plus invalid status "Bogus" on the
sample complaint — rejected, store untouched. -/
theorem update_failure_is_atomic_witness :
    updateStatus [sampleComplaint] "650000000000000000000001"
        (some "Bogus") (some "checked") 5 = .error .validation
    ∧ updateRoute [sampleComplaint] "650000000000000000000001"
        (some "Bogus") (some "checked") 5 = (400, [sampleComplaint]) :=
  update_failure_is_atomic [sampleComplaint] "650000000000000000000001"
    "Bogus" "checked" 5 sampleComplaint (by decide) rfl (by decide)
    (by decide) (by decide) (by decide)

/-- C8: In every store state reachable through the service's routes,
every complaint's status is one of the five enumerated values; a create
supplying a status outside the set, and an update supplying a non-empty
status outside the set, are both rejected with 400 and change nothing;
and the create route never modifies an existing complaint, so a stored
status is mutable only through the status-update operation. -/
theorem status_always_enumerated :
    (∀ s, Reachable s → ∀ c ∈ s, validStatus c.status = true)
    ∧ (∀ (store : List Complaint) (body : CreateBody) (newId : String) (now : Nat)
        (s : String), body.status = some s → validStatus s = false →
        createRoute store body newId now = (400, store))
    ∧ (∀ (store : List Complaint) (id : String) (s : String) (cm : Option String)
        (now : Nat) (c : Complaint),
        isValidObjectId id = true →
        store.find? (fun x => x.id == id) = some c →
        validateComplaint c = true → s ≠ "" → validStatus s = false →
        updateRoute store id (some s) cm now = (400, store))
    ∧ (∀ (store : List Complaint) (body : CreateBody) (newId : String) (now : Nat)
        (c : Complaint), c ∈ store → c ∈ (createRoute store body newId now).2) := by
  refine ⟨?_, ?_, ?_, ?_⟩
  · intro s hs c hc
    exact validateComplaint_status (reachable_valid hs c hc)
  · intro store body newId now s hbody hs
    exact createRoute_error store body newId now _
      (createComplaint_invalid_status store body newId now s hbody hs)
  · intro store id s cm now c hid hfind hc hs0 hs
    have h := updateStatus_invalid_status store id s cm now c hid hfind hc hs0 hs
    unfold updateRoute
    rw [h]
  · intro store body newId now c hc
    unfold createRoute
    cases hcr : createComplaint store body newId now with
    | error e => exact hc
    | ok p =>
        obtain ⟨s', doc⟩ := p
        have hinv := createComplaint_ok_inv store body newId now s' doc hcr
        simp only
        rw [hinv.2]
        exact List.mem_append_left _ hc

/-- Witness for C8: the reachable singleton store has an enumerated
status; a create with status "Bogus" and an update to "Bogus" are both
rejected; create leaves the existing complaint in the store. -/
theorem status_always_enumerated_witness :
    validStatus sampleComplaint.status = true
    ∧ createRoute [] badStatusBody "650000000000000000000003" 3 = (400, [])
    ∧ updateRoute [sampleComplaint] "650000000000000000000001" (some "Bogus") none 5
        = (400, [sampleComplaint])
    ∧ sampleComplaint ∈ (createRoute [sampleComplaint] badStatusBody
        "650000000000000000000003" 3).2 := by
  have hreach : Reachable [sampleComplaint] :=
    Reachable.doCreate [] sampleBody "650000000000000000000001" 1 Reachable.init
  refine ⟨?_, ?_, ?_, ?_⟩
  · exact status_always_enumerated.1 [sampleComplaint] hreach sampleComplaint
      (List.mem_singleton.mpr rfl)
  · exact status_always_enumerated.2.1 [] badStatusBody _ _ "Bogus" rfl (by decide)
  · exact status_always_enumerated.2.2.1 [sampleComplaint] _ "Bogus" none 5
      sampleComplaint (by decide) rfl (by decide) (by decide) (by decide)
  · exact status_always_enumerated.2.2.2 [sampleComplaint] badStatusBody _ _
      sampleComplaint (List.mem_singleton.mpr rfl)

/-- C9: An UpdateStatus request whose id cannot be cast to an ObjectId
(neither 24 hex characters nor 12 characters) throws a CastError that the
route's catch maps to HTTP 400, whereas a well-formed id that is merely
absent from the store yields the 404 NotFoundError. -/
theorem malformed_id_yields_400 (store : List Complaint) (id : String)
    (st cm : Option String) (now : Nat) (h : isValidObjectId id = false) :
    updateStatus store id st cm now = .error .castError
    ∧ updateHttpStatus (updateStatus store id st cm now) = 400
    ∧ (∀ id2, isValidObjectId id2 = true →
        store.find? (fun x => x.id == id2) = none →
        updateStatus store id2 st cm now = .error .notFound
        ∧ updateHttpStatus (updateStatus store id2 st cm now) = 404) := by
  have h1 : updateStatus store id st cm now = .error .castError := by
    unfold updateStatus
    rw [if_neg (by simp [h])]
  refine ⟨h1, by rw [h1]; rfl, ?_⟩
  intro id2 hid2 hfind
  have h2 : updateStatus store id2 st cm now = .error .notFound := by
    unfold updateStatus
    rw [if_pos hid2, hfind]
  exact ⟨h2, by rw [h2]; rfl⟩

/-- Witness for C9: the malformed id "abc" answers 400 while the
well-formed absent id answers 404, on the same singleton store. -/
theorem malformed_id_yields_400_witness :
    updateStatus [sampleComplaint] "abc" (some "Resolved") none 5 = .error .castError
    ∧ updateHttpStatus (updateStatus [sampleComplaint] "abc" (some "Resolved") none 5) = 400
    ∧ (updateStatus [sampleComplaint] "650000000000000000000002" (some "Resolved") none 5
          = .error .notFound
      ∧ updateHttpStatus (updateStatus [sampleComplaint] "650000000000000000000002"
          (some "Resolved") none 5) = 404) := by
  have h := malformed_id_yields_400 [sampleComplaint] "abc" (some "Resolved") none 5 (by decide)
  exact ⟨h.1, h.2.1, h.2.2 "650000000000000000000002" (by decide) rfl⟩

/-- C10: On a successful login whose submitted email carries surrounding
whitespace, the token payload records the raw untrimmed email while the
response's email field carries the trimmed one, so the two differ. -/
theorem token_records_untrimmed_email (ae ap e p : String)
    (he : e ≠ "") (hp : p ≠ "")
    (hte : jsTrim e = ae) (htp : jsTrim p = ap) (hws : jsTrim e ≠ e) :
    ∃ r : LoginOk, login ae ap (some e) (some p) = .success r
      ∧ r.tokenPayloadEmail = e
      ∧ r.email = jsTrim e
      ∧ r.tokenPayloadEmail ≠ r.email := by
  refine ⟨_, login_success ae ap e p he hp hte htp, rfl, rfl, ?_⟩
  intro hh
  exact hws ((show e = jsTrim e from hh)).symm

/-- Witness for C10 at the configured default credentials with a
whitespace-wrapped email. -/
theorem token_records_untrimmed_email_witness :
    ∃ r : LoginOk,
      login "prasad@gmail.com" "prasad123" (some " prasad@gmail.com ") (some "prasad123")
          = .success r
      ∧ r.tokenPayloadEmail = " prasad@gmail.com "
      ∧ r.email = jsTrim " prasad@gmail.com "
      ∧ r.tokenPayloadEmail ≠ r.email :=
  token_records_untrimmed_email "prasad@gmail.com" "prasad123"
    " prasad@gmail.com " "prasad123" (by decide) (by decide) (by decide)
    (by decide) (by decide)

end ComplaintBackend
